import Mathlib

/-!
# Verification of the style-profile similarity engine

A shallow embedding of `src/services/style_profile_service.py` from the
`ai-fashion-stylist` repository, together with theorems settling the claims
about the Profile Text Renderer, the Profile Merge Engine, the Similarity
Ranker and the orchestrating service operations.

Modelling conventions:
* Python floats are modelled by `ℚ`.  Cosine similarity
  `dot / (‖v‖·‖w‖)` involves a square root, so similarities are represented
  by the order-isomorphic rational key `sign(dot) · dot² / (‖v‖²·‖w‖²)`
  (the map `x ↦ sign(x)·x²` is strictly monotone on ℝ, so comparisons and
  ties of keys coincide exactly with comparisons and ties of the real
  cosine similarities).
* Python exceptions (`ValueError`, `HTTPException`) are modelled by
  `Except String`; the string is the exception's message/detail.
* The SQLAlchemy session is modelled by the list of persisted rows; an
  operation returns its outcome together with the post-commit row list.
* Python `dict`s are insertion-ordered association lists; Python `set`
  iteration order is unspecified, so `list(set(...))` is modelled by
  `List.dedup` (no claim depends on the order of the deduplicated lists).
* JSON-nullable list/dict columns conflate `null` with empty: both are
  falsy in every branch the code takes, and no claim distinguishes them.
-/

deriving instance DecidableEq for Except

namespace FashionStylist

/-- Embedding vectors (`List[float]` in the source). -/
abbrev Vec := List ℚ

/-- `sum(a * b for a, b in zip(vec1, vec2))` from `_cosine_similarity`. -/
def dotProduct (v w : Vec) : ℚ := (List.zipWith (· * ·) v w).sum

/-- `sum(a * a for a in vec)` — the squared magnitude (the source takes
`** 0.5` of this; we keep the square to stay in ℚ). -/
def sumSq (v : Vec) : ℚ := (v.map (fun a => a * a)).sum

/-- `_cosine_similarity` from the source, returning the order-isomorphic
rational key of the real cosine similarity.  The source raises
`ValueError("Vectors must have the same length")` on a length mismatch, and
returns `0` when either magnitude is exactly zero (`magnitude == 0` for the
float `sqrt` of a sum of squares holds exactly when the sum of squares is
zero).  Otherwise the real similarity is `dot / sqrt(m1·m2)`, represented
here by `sign(dot)·dot²/(m1·m2)`. -/
def cosine_similarity (vec1 vec2 : Vec) : Except String ℚ :=
  if vec1.length ≠ vec2.length then
    .error "Vectors must have the same length"
  else
    let d := dotProduct vec1 vec2
    let m1 := sumSq vec1
    let m2 := sumSq vec2
    if m1 = 0 ∨ m2 = 0 then .ok 0
    else .ok (if 0 ≤ d then d ^ 2 / (m1 * m2) else -(d ^ 2 / (m1 * m2)))

/-- A row of the `style_profiles` table, restricted to the columns the
service reads or writes.  `height` is `Float` in the schema (ℚ here); the
JSON collections are modelled as lists (see module conventions). -/
structure StyleProfile where
  id : Nat
  user_id : Nat
  name : String
  description : Option String
  body_shape : Option String
  skin_tone : Option String
  height : Option ℚ
  sizes : List (String × String)
  style_preferences : List String
  favorite_colors : List String
  disliked_items : List String
  style_embedding : Option Vec
deriving Repr, DecidableEq

/-- The similarity-computation loop of `find_similar_profiles`: profiles
with a falsy (`None`/empty) `style_embedding` are skipped; for the others
`_cosine_similarity(embedding, profile.style_embedding)` is computed, and
the first `ValueError` aborts the whole loop (the source has no
`try`/`except` around the call). -/
def computeSimilarities (embedding : Vec) : List StyleProfile → Except String (List (StyleProfile × ℚ))
  | [] => .ok []
  | p :: ps =>
    match p.style_embedding with
    | none => computeSimilarities embedding ps
    | some v =>
      if v = [] then computeSimilarities embedding ps
      else
        match cosine_similarity embedding v with
        | .error e => .error e
        | .ok s =>
          match computeSimilarities embedding ps with
          | .error e => .error e
          | .ok rest => .ok ((p, s) :: rest)

/-- The comparison used by `similarities.sort(key=lambda x: x[1],
reverse=True)`: `a` may come before `b` exactly when `b`'s similarity key
is ≤ `a`'s.  Python's sort is stable, and stability is preserved under
`reverse=True`, which Mathlib's `insertionSort` with this relation models
exactly (ties keep the original relative order). -/
def simDescRel (a b : StyleProfile × ℚ) : Prop := b.2 ≤ a.2

instance : DecidableRel simDescRel := fun a b => inferInstanceAs (Decidable (b.2 ≤ a.2))

instance : IsTotal (StyleProfile × ℚ) simDescRel := ⟨fun a b => le_total b.2 a.2⟩

instance : IsTrans (StyleProfile × ℚ) simDescRel := ⟨fun _ _ _ h h' => le_trans h' h⟩

/-- Stable descending sort by similarity, as performed by
`similarities.sort(key=lambda x: x[1], reverse=True)`. -/
def sortBySimilarityDesc (l : List (StyleProfile × ℚ)) : List (StyleProfile × ℚ) :=
  List.insertionSort simDescRel l

/-- Python list slicing `l[:n]` for an `int` bound `n`: a nonnegative bound
keeps the first `min n (length l)` elements; a negative bound `-k` keeps
the first `length l - k` elements (empty when `k ≥ length l`). -/
def pySlice (l : List α) (n : Int) : List α :=
  if 0 ≤ n then l.take n.toNat else l.take (l.length - (-n).toNat)

/-- `find_similar_profiles` from the source: compute similarities over every
stored profile that has a truthy embedding, sort descending (stable), then
return `[profile for profile, _ in similarities[:limit]]`.  The database
session is the list of stored rows, in insertion order. -/
def find_similar_profiles (db : List StyleProfile) (embedding : Vec) (limit : Int) :
    Except String (List StyleProfile) :=
  match computeSimilarities embedding db with
  | .error e => .error e
  | .ok sims => .ok ((pySlice (sortBySimilarityDesc sims) limit).map Prod.fst)

/-- Python truthiness of an optional string: `None` and `""` are falsy. -/
def truthyStr : Option String → Bool
  | none => false
  | some s => s != ""

/-- Python truthiness of an optional float: `None` and `0.0` are falsy. -/
def truthyNum : Option ℚ → Bool
  | none => false
  | some q => q != 0

/-- `profile.body_shape or 'unknown'` from the renderer. -/
def renderOr (o : Option String) : String :=
  match o with
  | none => "unknown"
  | some s => if s = "" then "unknown" else s

/-- `", ".join(f"{k}: {v}" for k, v in d.items())`. -/
def renderSizes (d : List (String × String)) : String :=
  String.intercalate ", " (d.map (fun kv => kv.1 ++ ": " ++ kv.2))

/-- `_profile_to_text` from the source, fragment by fragment: the first two
fragments always contribute (with `'unknown'` for a falsy value) and end in
`". "`; `height`, `sizes`, `style_preferences` and `favorite_colors`
contribute only when truthy and also end in `". "`; the `disliked_items`
fragment ends in `"."` with no trailing space. -/
def profile_to_text (p : StyleProfile) : String :=
  "Body shape: " ++ renderOr p.body_shape ++ ". " ++
  ("Skin tone: " ++ renderOr p.skin_tone ++ ". ") ++
  (if truthyNum p.height then
    "Height: " ++ toString ((p.height).getD 0) ++ "cm. " else "") ++
  (if p.sizes ≠ [] then "Sizes: " ++ renderSizes p.sizes ++ ". " else "") ++
  (if p.style_preferences ≠ [] then
    "Style preferences: " ++ String.intercalate ", " p.style_preferences ++ ". " else "") ++
  (if p.favorite_colors ≠ [] then
    "Favorite colors: " ++ String.intercalate ", " p.favorite_colors ++ ". " else "") ++
  (if p.disliked_items ≠ [] then
    "Disliked items: " ++ String.intercalate ", " p.disliked_items ++ "." else "")

/-- The attribute bag accepted by `_profile_dict_to_text` (`profile.get(k)`
returns `None` for a missing key; a missing or empty list/dict is falsy
either way, so lists model both). -/
structure ProfileDict where
  body_shape : Option String := none
  skin_tone : Option String := none
  height : Option ℚ := none
  sizes : List (String × String) := []
  style_preferences : List String := []
  favorite_colors : List String := []
  disliked_items : List String := []
deriving Repr, DecidableEq

/-- `_profile_dict_to_text` from the source — the same rendering as
`_profile_to_text`, reading from a plain mapping via `.get`. -/
def profile_dict_to_text (p : ProfileDict) : String :=
  "Body shape: " ++ renderOr p.body_shape ++ ". " ++
  ("Skin tone: " ++ renderOr p.skin_tone ++ ". ") ++
  (if truthyNum p.height then
    "Height: " ++ toString ((p.height).getD 0) ++ "cm. " else "") ++
  (if p.sizes ≠ [] then "Sizes: " ++ renderSizes p.sizes ++ ". " else "") ++
  (if p.style_preferences ≠ [] then
    "Style preferences: " ++ String.intercalate ", " p.style_preferences ++ ". " else "") ++
  (if p.favorite_colors ≠ [] then
    "Favorite colors: " ++ String.intercalate ", " p.favorite_colors ++ ". " else "") ++
  (if p.disliked_items ≠ [] then
    "Disliked items: " ++ String.intercalate ", " p.disliked_items ++ "." else "")

/-- `generate_style_embedding` from the source: call the external embedding
client on the rendered text; any exception is re-raised as
`HTTPException(500, "Error generating style embedding: ...")`.  The external
client is the parameter `embed`. -/
def generate_style_embedding (embed : String → Except String Vec) (profile_text : String) :
    Except String Vec :=
  match embed profile_text with
  | .ok v => .ok v
  | .error e => .error ("Error generating style embedding: " ++ e)

/-- The fields of an `analysis_results` mapping that the service reads.
The nested groups (`person_attributes`, `style_assessment`,
`size_estimation`) are flattened: a missing group behaves exactly like all
of its keys missing.  `style_descriptors`/`color_palette` conflate missing
with empty (both falsy, and `get(k, [])` defaults to empty). -/
structure AnalysisResults where
  body_shape : Option String := none
  skin_tone : Option String := none
  style_descriptors : List String := []
  color_palette : List String := []
  size_estimation : List (String × String) := []
deriving Repr, DecidableEq

/-- The `StyleProfile` row built by `create_profile_from_analysis` before
embedding generation.  The identifier is assigned by the storage
collaborator on insert and is not observed by any property here, so it is
modelled as `0`. -/
def initialProfileFromAnalysis (user_id : Nat) (ar : AnalysisResults) (profile_name : String) :
    StyleProfile where
  id := 0
  user_id := user_id
  name := profile_name
  description := none
  body_shape := ar.body_shape
  skin_tone := ar.skin_tone
  height := none
  sizes := ar.size_estimation
  style_preferences := ar.style_descriptors
  favorite_colors := ar.color_palette
  disliked_items := []
  style_embedding := none

/-- `create_profile_from_analysis` from the source: build the row, generate
the embedding, and only then `db.add` + `db.commit`.  Returns the outcome
together with the post-operation persisted rows: on an embedding failure
the row list is unchanged (the row was never added). -/
def create_profile_from_analysis (embed : String → Except String Vec)
    (db : List StyleProfile) (user_id : Nat) (ar : AnalysisResults) (profile_name : String) :
    Except String StyleProfile × List StyleProfile :=
  let db_profile := initialProfileFromAnalysis user_id ar profile_name
  match generate_style_embedding embed (profile_to_text db_profile) with
  | .error e => (.error e, db)
  | .ok v =>
    let p := { db_profile with style_embedding := some v }
    (.ok p, db ++ [p])

/-- Python `{**d, **e}` / `d.update(e)` on insertion-ordered mappings:
keys already in `d` keep their position with the value from `e` when
present; keys only in `e` are appended in `e`'s order. -/
def dictUpdate (d e : List (String × String)) : List (String × String) :=
  d.map (fun kv => match e.lookup kv.1 with | some v => (kv.1, v) | none => kv) ++
  e.filter (fun kv => !(d.any (fun kv2 => kv2.1 == kv.1)))

/-- The field-update block of `update_profile_from_analysis`: each field is
overwritten only when the analysis value is truthy; `sizes` is merged via
`{**existing, **new}`; the list fields are merged via
`list(set(existing + new))`. -/
def applyAnalysisUpdate (p : StyleProfile) (ar : AnalysisResults) : StyleProfile :=
  let p1 := if truthyStr ar.body_shape then { p with body_shape := ar.body_shape } else p
  let p2 := if truthyStr ar.skin_tone then { p1 with skin_tone := ar.skin_tone } else p1
  let p3 := if ar.size_estimation ≠ [] then
    { p2 with sizes := dictUpdate p2.sizes ar.size_estimation } else p2
  let p4 := if ar.style_descriptors ≠ [] then
    { p3 with style_preferences := (p3.style_preferences ++ ar.style_descriptors).dedup } else p3
  let p5 := if ar.color_palette ≠ [] then
    { p4 with favorite_colors := (p4.favorite_colors ++ ar.color_palette).dedup } else p4
  p5

/-- `update_profile_from_analysis` from the source: load the row by id
(404 `"Style profile not found"` when absent), apply the non-destructive
field updates, regenerate the embedding unconditionally, then commit.  On
an embedding failure nothing is committed (the persisted rows are
unchanged). -/
def update_profile_from_analysis (embed : String → Except String Vec)
    (db : List StyleProfile) (profile_id : Nat) (ar : AnalysisResults) :
    Except String StyleProfile × List StyleProfile :=
  match db.find? (fun q => q.id == profile_id) with
  | none => (.error "Style profile not found", db)
  | some p =>
    let p' := applyAnalysisUpdate p ar
    match generate_style_embedding embed (profile_to_text p') with
    | .error e => (.error e, db)
    | .ok v =>
      let p2 := { p' with style_embedding := some v }
      (.ok p2, db.map (fun q => if q.id = profile_id then p2 else q))

/-- `db.query(StyleProfile).filter(StyleProfile.id.in_(profile_ids),
StyleProfile.user_id == user_id).all()` — the stored rows whose id is in
the requested list and which belong to the user, in storage order. -/
def queryProfiles (db : List StyleProfile) (user_id : Nat) (profile_ids : List Nat) :
    List StyleProfile :=
  db.filter (fun p => profile_ids.contains p.id && p.user_id == user_id)

/-- The running merge accumulator of `merge_profiles` (`merged_data`). -/
structure MergedData where
  body_shape : Option String := none
  skin_tone : Option String := none
  height : Option ℚ := none
  sizes : List (String × String) := []
  style_preferences : List String := []
  favorite_colors : List String := []
  disliked_items : List String := []
deriving Repr, DecidableEq

/-- One iteration of the merge loop of `merge_profiles`: truthy singular
fields overwrite, `sizes` mappings are unioned with later keys winning, the
list fields are concatenated. -/
def mergeStep (acc : MergedData) (p : StyleProfile) : MergedData where
  body_shape := if truthyStr p.body_shape then p.body_shape else acc.body_shape
  skin_tone := if truthyStr p.skin_tone then p.skin_tone else acc.skin_tone
  height := if truthyNum p.height then p.height else acc.height
  sizes := if p.sizes ≠ [] then dictUpdate acc.sizes p.sizes else acc.sizes
  style_preferences := if p.style_preferences ≠ [] then
    acc.style_preferences ++ p.style_preferences else acc.style_preferences
  favorite_colors := if p.favorite_colors ≠ [] then
    acc.favorite_colors ++ p.favorite_colors else acc.favorite_colors
  disliked_items := if p.disliked_items ≠ [] then
    acc.disliked_items ++ p.disliked_items else acc.disliked_items

/-- The merge loop of `merge_profiles` over the loaded profiles, in order. -/
def mergeData (profiles : List StyleProfile) : MergedData :=
  profiles.foldl mergeStep {}

/-- The `list(set(...))` deduplication applied to the three list fields
after the merge loop. -/
def mergeFinal (md : MergedData) : MergedData :=
  { md with
    style_preferences := md.style_preferences.dedup
    favorite_colors := md.favorite_colors.dedup
    disliked_items := md.disliked_items.dedup }

/-- The new `StyleProfile` row built by `merge_profiles` from the merged
data (before embedding generation). -/
def mergedProfile (user_id : Nat) (name : String) (n : Nat) (md : MergedData) : StyleProfile where
  id := 0
  user_id := user_id
  name := name
  description := some ("Merged profile from " ++ toString n ++ " profiles")
  body_shape := md.body_shape
  skin_tone := md.skin_tone
  height := md.height
  sizes := md.sizes
  style_preferences := md.style_preferences
  favorite_colors := md.favorite_colors
  disliked_items := md.disliked_items
  style_embedding := none

/-- `merge_profiles` from the source: load the rows matching the requested
ids for this user; raise 404 `"One or more profiles not found"` when the
loaded count differs from the requested count; otherwise merge, embed, and
persist a new profile.  Returns the outcome with the post-operation rows. -/
def merge_profiles (embed : String → Except String Vec) (db : List StyleProfile)
    (user_id : Nat) (profile_ids : List Nat) (new_profile_name : String) :
    Except String StyleProfile × List StyleProfile :=
  let profiles := queryProfiles db user_id profile_ids
  if profiles.length ≠ profile_ids.length then
    (.error "One or more profiles not found", db)
  else
    let md := mergeFinal (mergeData profiles)
    let db_profile := mergedProfile user_id new_profile_name profiles.length md
    match generate_style_embedding embed (profile_to_text db_profile) with
    | .error e => (.error e, db)
    | .ok v =>
      let p := { db_profile with style_embedding := some v }
      (.ok p, db ++ [p])

/-! ## Concrete fixtures used by witnesses and counterexamples -/

/-- A profile with every nullable attribute absent. -/
def emptyStyleProfile : StyleProfile where
  id := 0
  user_id := 0
  name := ""
  description := none
  body_shape := none
  skin_tone := none
  height := none
  sizes := []
  style_preferences := []
  favorite_colors := []
  disliked_items := []
  style_embedding := none

/-- Candidate A of the spec's similarity example: embedding `[1,0,0]`. -/
def profileA : StyleProfile := { emptyStyleProfile with id := 1, user_id := 1, name := "A", style_embedding := some [1, 0, 0] }

/-- Candidate B of the spec's similarity example: embedding `[0,1,0]`. -/
def profileB : StyleProfile := { profileA with id := 2, name := "B", style_embedding := some [0, 1, 0] }

/-- Candidate C of the spec's similarity example: embedding `[0.9,0.1,0]`. -/
def profileC : StyleProfile := { profileA with id := 3, name := "C", style_embedding := some [9/10, 1/10, 0] }

/-- A candidate whose stored embedding has length 2. -/
def profileMismatch : StyleProfile := { profileA with id := 4, name := "M", style_embedding := some [1, 0] }

/-- A candidate with the zero vector as its stored embedding. -/
def profileZero : StyleProfile := { profileA with id := 5, name := "Z", style_embedding := some [0, 0, 0] }

/-! ## Trailing-character machinery for the Profile Text Renderer -/

/-- The last character of a string, when it has one. -/
def lastChar (s : String) : Option Char := s.data.getLast?

theorem lastChar_append_of_eq_some {y : String} {c : Char} (x : String)
    (h : lastChar y = some c) : lastChar (x ++ y) = some c := by
  unfold lastChar at h ⊢
  rw [String.data_append, List.getLast?_append_of_ne_nil]
  · exact h
  · intro hnil
    rw [hnil] at h
    simp at h

theorem lastChar_append_dotSpace (x : String) : lastChar (x ++ ". ") = some ' ' :=
  lastChar_append_of_eq_some x rfl

theorem lastChar_append_dot (x : String) : lastChar (x ++ ".") = some '.' :=
  lastChar_append_of_eq_some x rfl

theorem endsSp_step {b : String} (h : lastChar b = some ' ') (f : String)
    (hf : f = "" ∨ lastChar f = some ' ') : lastChar (b ++ f) = some ' ' := by
  rcases hf with rfl | hf
  · rwa [String.append_empty]
  · exact lastChar_append_of_eq_some b hf

theorem optionalFragment_cases (c : Prop) [Decidable c] (x tail : String)
    (htail : lastChar tail = some ' ') :
    (if c then x ++ tail else "") = "" ∨ lastChar (if c then x ++ tail else "") = some ' ' := by
  by_cases h : c
  · right
    rw [if_pos h]
    exact lastChar_append_of_eq_some x htail
  · left
    rw [if_neg h]

/-- `_profile_to_text` is the mapping variant applied to the profile's
attribute fields: the two source functions have identical rendering logic. -/
theorem profile_to_text_eq_dict (p : StyleProfile) :
    profile_to_text p = profile_dict_to_text
      ⟨p.body_shape, p.skin_tone, p.height, p.sizes,
       p.style_preferences, p.favorite_colors, p.disliked_items⟩ := rfl

theorem profile_dict_to_text_ends (d : ProfileDict) :
    (d.disliked_items = [] → lastChar (profile_dict_to_text d) = some ' ') ∧
    (d.disliked_items ≠ [] → lastChar (profile_dict_to_text d) = some '.') := by
  unfold profile_dict_to_text
  constructor
  · intro h
    rw [if_neg (not_not_intro h), String.append_empty]
    have hbase : lastChar ("Body shape: " ++ renderOr d.body_shape ++ ". " ++
        ("Skin tone: " ++ renderOr d.skin_tone ++ ". ")) = some ' ' := by
      rw [← String.append_assoc]
      exact lastChar_append_dotSpace _
    exact endsSp_step (endsSp_step (endsSp_step (endsSp_step hbase _
      (optionalFragment_cases _ _ _ (by rfl))) _ (optionalFragment_cases _ _ _ (by rfl))) _
      (optionalFragment_cases _ _ _ (by rfl))) _ (optionalFragment_cases _ _ _ (by rfl))
  · intro h
    rw [if_pos h]
    exact lastChar_append_of_eq_some _ (lastChar_append_dot _)

/-- C4 (counterexample): on a profile with every optional attribute absent,
the renderer outputs `"Body shape: unknown. Skin tone: unknown. "`, which
ends with a trailing space — refuting the claim that the output has no
trailing separator — and renders the absent `body_shape`/`skin_tone` as
`"unknown"` rather than skipping them. -/
theorem C4_counterexample :
    profile_to_text emptyStyleProfile = "Body shape: unknown. Skin tone: unknown. " ∧
    lastChar (profile_to_text emptyStyleProfile) = some ' ' := ⟨rfl, rfl⟩

/-- C4 (amended): each contributed fragment of `_profile_to_text` /
`_profile_dict_to_text` carries its own trailing `". "` separator, except
the `disliked_items` fragment, which ends in `"."` alone; consequently the
output ends with a trailing space whenever `disliked_items` is absent, and
with `'.'` (no trailing separator) when it is present.  Absent optional
fields beyond `body_shape`/`skin_tone` contribute nothing; absent
`body_shape`/`skin_tone` render as `"unknown"`, never as `"None"`. -/
theorem C4_trailing_separator :
    (∀ p : StyleProfile,
      (p.disliked_items = [] → lastChar (profile_to_text p) = some ' ') ∧
      (p.disliked_items ≠ [] → lastChar (profile_to_text p) = some '.')) ∧
    (∀ d : ProfileDict,
      (d.disliked_items = [] → lastChar (profile_dict_to_text d) = some ' ') ∧
      (d.disliked_items ≠ [] → lastChar (profile_dict_to_text d) = some '.')) := by
  refine ⟨fun p => ?_, fun d => profile_dict_to_text_ends d⟩
  rw [profile_to_text_eq_dict]
  exact profile_dict_to_text_ends
    ⟨p.body_shape, p.skin_tone, p.height, p.sizes,
     p.style_preferences, p.favorite_colors, p.disliked_items⟩

/-- Witness for C4: the trailing-character dichotomy evaluated on concrete
profiles with and without disliked items. -/
theorem C4_trailing_separator_witness :
    lastChar (profile_to_text profileA) = some ' ' ∧
    lastChar (profile_dict_to_text
      { disliked_items := ["crop tops"] }) = some '.' :=
  ⟨(C4_trailing_separator.1 profileA).1 rfl,
   (C4_trailing_separator.2 { disliked_items := ["crop tops"] }).2 (by decide)⟩

/-! ## Error propagation in the Similarity Ranker -/

theorem cosine_similarity_error {v w : Vec} {e : String}
    (h : cosine_similarity v w = .error e) : e = "Vectors must have the same length" := by
  unfold cosine_similarity at h
  by_cases h1 : v.length ≠ w.length
  · rw [if_pos h1] at h
    exact (Except.error.inj h).symm
  · rw [if_neg h1] at h
    by_cases h2 : sumSq v = 0 ∨ sumSq w = 0
    · rw [if_pos h2] at h
      cases h
    · rw [if_neg h2] at h
      cases h

theorem computeSimilarities_mismatch (q : Vec) (db : List StyleProfile)
    (h : ∃ p ∈ db, ∃ v, p.style_embedding = some v ∧ v ≠ [] ∧ v.length ≠ q.length) :
    computeSimilarities q db = .error "Vectors must have the same length" := by
  induction db with
  | nil =>
    rcases h with ⟨p, hp, -⟩
    exact absurd hp (List.not_mem_nil p)
  | cons a as ih =>
    rcases h with ⟨p, hp, v, hv, hne, hlen⟩
    rcases List.mem_cons.1 hp with rfl | hmem
    · have hcos : cosine_similarity q v = .error "Vectors must have the same length" := by
        unfold cosine_similarity
        rw [if_pos (fun hq => hlen hq.symm)]
      simp only [computeSimilarities, hv]
      rw [if_neg hne, hcos]
    · have hrec := ih ⟨p, hmem, v, hv, hne, hlen⟩
      cases hemb : a.style_embedding with
      | none =>
        simp only [computeSimilarities, hemb]
        exact hrec
      | some w =>
        simp only [computeSimilarities, hemb]
        by_cases hw : w = []
        · rw [if_pos hw]
          exact hrec
        · rw [if_neg hw]
          cases hcos : cosine_similarity q w with
          | error e => rw [cosine_similarity_error hcos]
          | ok s => rw [hrec]

/-- C1 (counterexample): with query `[1,0,0]`, one qualified candidate
(embedding `[1,0,0]`) and one candidate whose stored embedding `[1,0]` has
mismatched length, `find_similar_profiles` raises
`ValueError("Vectors must have the same length")` instead of excluding the
mismatched candidate and returning the qualified one. -/
theorem C1_counterexample :
    find_similar_profiles [profileA, profileMismatch] [1, 0, 0] 5 =
      .error "Vectors must have the same length" := by
  simp [find_similar_profiles, computeSimilarities, cosine_similarity, dotProduct, sumSq,
    profileA, profileMismatch, emptyStyleProfile]

/-- C1 (amended): for every query vector and every candidate whose stored
embedding is truthy (non-`None`, non-empty) and has a length different from
the query's, `find_similar_profiles` fails as a whole with
`ValueError("Vectors must have the same length")`: the mismatched candidate
is not excluded, and no result list is returned.  (A candidate whose stored
embedding is `None` or the empty list is skipped without error.) -/
theorem C1_mismatch_errors (db : List StyleProfile) (q : Vec) (lim : Int)
    (p : StyleProfile) (v : Vec) (hp : p ∈ db) (hv : p.style_embedding = some v)
    (hne : v ≠ []) (hlen : v.length ≠ q.length) :
    find_similar_profiles db q lim = .error "Vectors must have the same length" := by
  unfold find_similar_profiles
  rw [computeSimilarities_mismatch q db ⟨p, hp, v, hv, hne, hlen⟩]

/-- Witness for C1 at a concrete input. -/
theorem C1_mismatch_errors_witness :
    find_similar_profiles [profileA, profileMismatch] [1, 0, 0] 3 =
      .error "Vectors must have the same length" :=
  C1_mismatch_errors [profileA, profileMismatch] [1, 0, 0] 3 profileMismatch [1, 0]
    (by simp) rfl (by simp) (by simp)

/-! ## Merge of an empty profile set -/

theorem queryProfiles_nil (db : List StyleProfile) (uid : Nat) :
    queryProfiles db uid [] = [] := by
  simp [queryProfiles]

/-- C3 (counterexample): merging an empty list of profile ids succeeds —
`merge_profiles` builds and persists a profile with all-empty merged
attributes (description `"Merged profile from 0 profiles"`) instead of
failing; no `EmptyMergeSetError` exists in the code. -/
theorem C3_counterexample :
    merge_profiles (fun _ => .ok [1]) [] 7 [] "Merged" =
      (.ok { emptyStyleProfile with
               user_id := 7, name := "Merged",
               description := some "Merged profile from 0 profiles",
               style_embedding := some [1] },
       [{ emptyStyleProfile with
            user_id := 7, name := "Merged",
            description := some "Merged profile from 0 profiles",
            style_embedding := some [1] }]) := rfl

/-- C3 (amended): for an empty `profile_ids` list, `merge_profiles` does
not fail: the loaded count (0) equals the requested count (0), so it
produces and persists a merged profile with every merged attribute empty
and the description `"Merged profile from 0 profiles"` (provided the
embedding call succeeds).  There is no `EmptyMergeSetError`. -/
theorem C3_empty_merge_succeeds (embed : String → Except String Vec)
    (db : List StyleProfile) (uid : Nat) (name : String) (v : Vec)
    (h : embed "Body shape: unknown. Skin tone: unknown. " = .ok v) :
    ∃ P : StyleProfile,
      merge_profiles embed db uid [] name = (.ok P, db ++ [P]) ∧
      P.body_shape = none ∧ P.skin_tone = none ∧ P.height = none ∧
      P.sizes = [] ∧ P.style_preferences = [] ∧ P.favorite_colors = [] ∧
      P.disliked_items = [] ∧
      P.description = some "Merged profile from 0 profiles" ∧
      P.style_embedding = some v := by
  refine ⟨{ mergedProfile uid name 0 (mergeFinal (mergeData [])) with
              style_embedding := some v },
          ?_, rfl, rfl, rfl, rfl, rfl, rfl, rfl, rfl, rfl⟩
  unfold merge_profiles
  rw [queryProfiles_nil]
  rw [if_neg (by simp)]
  have h2 : generate_style_embedding embed
      (profile_to_text (mergedProfile uid name
        (queryProfiles db uid []).length (mergeFinal (mergeData (queryProfiles db uid []))))) = .ok v := by
    rw [queryProfiles_nil]
    show generate_style_embedding embed "Body shape: unknown. Skin tone: unknown. " = .ok v
    unfold generate_style_embedding
    rw [h]
  rw [queryProfiles_nil] at h2
  simp only [h2]
  rfl

/-- Witness for C3 at a concrete input. -/
theorem C3_empty_merge_succeeds_witness :
    ∃ P : StyleProfile,
      merge_profiles (fun _ => .ok [1]) [profileA] 1 [] "N" = (.ok P, [profileA] ++ [P]) ∧
      P.body_shape = none ∧ P.skin_tone = none ∧ P.height = none ∧
      P.sizes = [] ∧ P.style_preferences = [] ∧ P.favorite_colors = [] ∧
      P.disliked_items = [] ∧
      P.description = some "Merged profile from 0 profiles" ∧
      P.style_embedding = some [1] :=
  C3_empty_merge_succeeds (fun _ => .ok [1]) [profileA] 1 "N" [1] rfl

/-! ## Atomicity of profile creation -/

theorem generate_style_embedding_ok {embed : String → Except String Vec} {t : String} {v : Vec}
    (h : generate_style_embedding embed t = .ok v) : embed t = .ok v := by
  unfold generate_style_embedding at h
  cases he : embed t with
  | error e => rw [he] at h; cases h
  | ok w =>
    rw [he] at h
    exact congrArg Except.ok (Except.ok.inj h)

/-- C5 (confirmed): `create_profile_from_analysis` generates the embedding
before any persistence: if embedding fails the operation fails and the
stored rows are unchanged (no partial profile row), and on success the
single new row is the built profile whose `style_embedding` is exactly the
vector returned by the embedding service; every row added by the operation
has a non-null embedding. -/
theorem C5_create_atomic (embed : String → Except String Vec) (db : List StyleProfile)
    (uid : Nat) (ar : AnalysisResults) (name : String) :
    (∀ e, (create_profile_from_analysis embed db uid ar name).1 = .error e →
        (create_profile_from_analysis embed db uid ar name).2 = db) ∧
    (∀ p, (create_profile_from_analysis embed db uid ar name).1 = .ok p →
        (create_profile_from_analysis embed db uid ar name).2 = db ++ [p] ∧
        ∃ v, embed (profile_to_text (initialProfileFromAnalysis uid ar name)) = .ok v ∧
          p.style_embedding = some v) ∧
    (∀ q, q ∈ (create_profile_from_analysis embed db uid ar name).2 →
        q ∈ db ∨ q.style_embedding.isSome) := by
  simp only [create_profile_from_analysis]
  cases hg : generate_style_embedding embed
      (profile_to_text (initialProfileFromAnalysis uid ar name)) with
  | error e =>
    refine ⟨fun e2 h2 => rfl, fun p hp => ?_, fun q hq => Or.inl hq⟩
    cases hp
  | ok v =>
    refine ⟨fun e2 h2 => ?_, fun p hp => ?_, fun q hq => ?_⟩
    · cases h2
    · have hp2 := Except.ok.inj hp
      subst hp2
      exact ⟨rfl, v, generate_style_embedding_ok hg, rfl⟩
    · rcases List.mem_append.1 hq with hq | hq
      · exact Or.inl hq
      · rcases List.mem_singleton.1 hq with rfl
        exact Or.inr rfl

/-- Witness for C5: a failing embedding call persists nothing; a successful
one persists exactly the new profile carrying the generated vector. -/
theorem C5_create_atomic_witness :
    (create_profile_from_analysis (fun _ => .error "API Error") [] 1 {} "N").2 = [] ∧
    (create_profile_from_analysis (fun _ => .ok [2]) [] 1 {} "N").2 =
      [] ++ [{ initialProfileFromAnalysis 1 {} "N" with style_embedding := some [2] }] :=
  ⟨(C5_create_atomic (fun _ => .error "API Error") [] 1 {} "N").1
      "Error generating style embedding: API Error" rfl,
   ((C5_create_atomic (fun _ => .ok [2]) [] 1 {} "N").2.1
      { initialProfileFromAnalysis 1 {} "N" with style_embedding := some [2] } rfl).1⟩

/-! ## Last-write-wins merge of singular fields -/

/-- Spec-side definition (for comparison with the code): the value of the
last element of the list that is truthy (non-null, non-empty), if any. -/
def lastTruthyStr (l : List (Option String)) : Option String :=
  ((l.filter truthyStr).getLast?).join

/-- Spec-side definition: the value of the last element that is truthy
(non-null, non-zero), if any. -/
def lastTruthyNum (l : List (Option ℚ)) : Option ℚ :=
  ((l.filter truthyNum).getLast?).join

theorem join_eq_getD_none (o : Option (Option α)) : o.join = o.getD none := by
  cases o <;> rfl

theorem getLast?_getD_cons : ∀ (l : List α) (a d : α),
    ((a :: l).getLast?).getD d = (l.getLast?).getD a
  | [], _, _ => rfl
  | b :: bs, a, d => by
    rw [List.getLast?_cons_cons]
    rw [getLast?_getD_cons bs b d, getLast?_getD_cons bs b a]

theorem mergeStep_body_shape (acc : MergedData) (p : StyleProfile) :
    (mergeStep acc p).body_shape =
      if truthyStr p.body_shape then p.body_shape else acc.body_shape := rfl

theorem mergeStep_skin_tone (acc : MergedData) (p : StyleProfile) :
    (mergeStep acc p).skin_tone =
      if truthyStr p.skin_tone then p.skin_tone else acc.skin_tone := rfl

theorem mergeStep_height (acc : MergedData) (p : StyleProfile) :
    (mergeStep acc p).height =
      if truthyNum p.height then p.height else acc.height := rfl

theorem foldl_mergeStep_body_shape (l : List StyleProfile) (acc : MergedData) :
    (List.foldl mergeStep acc l).body_shape =
      (((l.map (fun p => p.body_shape)).filter truthyStr).getLast?).getD acc.body_shape := by
  induction l generalizing acc with
  | nil => rfl
  | cons p ps ih =>
    rw [List.foldl_cons, ih, List.map_cons]
    by_cases h : truthyStr p.body_shape
    · rw [List.filter_cons_of_pos h, mergeStep_body_shape, if_pos h, getLast?_getD_cons]
    · rw [List.filter_cons_of_neg (by simpa using h), mergeStep_body_shape, if_neg (by simpa using h)]

theorem foldl_mergeStep_skin_tone (l : List StyleProfile) (acc : MergedData) :
    (List.foldl mergeStep acc l).skin_tone =
      (((l.map (fun p => p.skin_tone)).filter truthyStr).getLast?).getD acc.skin_tone := by
  induction l generalizing acc with
  | nil => rfl
  | cons p ps ih =>
    rw [List.foldl_cons, ih, List.map_cons]
    by_cases h : truthyStr p.skin_tone
    · rw [List.filter_cons_of_pos h, mergeStep_skin_tone, if_pos h, getLast?_getD_cons]
    · rw [List.filter_cons_of_neg (by simpa using h), mergeStep_skin_tone, if_neg (by simpa using h)]

theorem foldl_mergeStep_height (l : List StyleProfile) (acc : MergedData) :
    (List.foldl mergeStep acc l).height =
      (((l.map (fun p => p.height)).filter truthyNum).getLast?).getD acc.height := by
  induction l generalizing acc with
  | nil => rfl
  | cons p ps ih =>
    rw [List.foldl_cons, ih, List.map_cons]
    by_cases h : truthyNum p.height
    · rw [List.filter_cons_of_pos h, mergeStep_height, if_pos h, getLast?_getD_cons]
    · rw [List.filter_cons_of_neg (by simpa using h), mergeStep_height, if_neg (by simpa using h)]

/-- C6 (confirmed): for every non-empty input sequence, the merge loop's
value for each singular field (`body_shape`, `skin_tone`, `height`) is
last-write-wins: it equals the value of the last profile, in input order,
whose value for the field is truthy (non-null/non-empty; non-zero for
`height`), and is `None` when no profile has one — a later null/empty value
never overwrites an earlier truthy one, and `height` follows the same rule
rather than averaging. -/
theorem C6_last_write_wins (profiles : List StyleProfile) (h : profiles ≠ []) :
    (mergeData profiles).body_shape = lastTruthyStr (profiles.map (fun p => p.body_shape)) ∧
    (mergeData profiles).skin_tone = lastTruthyStr (profiles.map (fun p => p.skin_tone)) ∧
    (mergeData profiles).height = lastTruthyNum (profiles.map (fun p => p.height)) := by
  refine ⟨?_, ?_, ?_⟩
  · rw [mergeData, foldl_mergeStep_body_shape, lastTruthyStr, join_eq_getD_none]
  · rw [mergeData, foldl_mergeStep_skin_tone, lastTruthyStr, join_eq_getD_none]
  · rw [mergeData, foldl_mergeStep_height, lastTruthyNum, join_eq_getD_none]

/-- A profile with body shape `"pear"`. -/
def profilePear : StyleProfile := { emptyStyleProfile with id := 11, body_shape := some "pear" }

/-- A profile with body shape `"hourglass"`. -/
def profileHourglass : StyleProfile :=
  { emptyStyleProfile with id := 13, body_shape := some "hourglass" }

/-- Witness for C6: the spec's own example — merging
`[body_shape="pear", body_shape=null, body_shape="hourglass"]` yields
`"hourglass"`, and `[body_shape="pear", body_shape=null]` yields `"pear"`. -/
theorem C6_last_write_wins_witness :
    (mergeData [profilePear, emptyStyleProfile, profileHourglass]).body_shape =
      some "hourglass" ∧
    (mergeData [profilePear, emptyStyleProfile]).body_shape = some "pear" :=
  ⟨((C6_last_write_wins [profilePear, emptyStyleProfile, profileHourglass]
      (by simp)).1).trans rfl,
   ((C6_last_write_wins [profilePear, emptyStyleProfile] (by simp)).1).trans rfl⟩

/-! ## Unconditional re-embedding on update -/

/-- C9 (confirmed): every successful `update_profile_from_analysis`
regenerates the embedding unconditionally: whatever the analysis contains
(even when it changes nothing), the returned profile is exactly the updated
attribute record carrying `style_embedding = some v` for the vector `v`
freshly returned by the embedding service on the post-update rendered text
— never the pre-update stored vector field. -/
theorem C9_reembedding_mandatory (embed : String → Except String Vec)
    (db : List StyleProfile) (pid : Nat) (ar : AnalysisResults)
    (p2 : StyleProfile) (db2 : List StyleProfile)
    (h : update_profile_from_analysis embed db pid ar = (.ok p2, db2)) :
    ∃ p0 v, db.find? (fun q => q.id == pid) = some p0 ∧
      embed (profile_to_text (applyAnalysisUpdate p0 ar)) = .ok v ∧
      p2 = { applyAnalysisUpdate p0 ar with style_embedding := some v } := by
  simp only [update_profile_from_analysis] at h
  cases hf : db.find? (fun q => q.id == pid) with
  | none =>
    rw [hf] at h
    exact absurd (congrArg Prod.fst h) (by simp)
  | some p0 =>
    rw [hf] at h
    dsimp only at h
    cases hg : generate_style_embedding embed (profile_to_text (applyAnalysisUpdate p0 ar)) with
    | error e =>
      rw [hg] at h
      exact absurd (congrArg Prod.fst h) (by simp)
    | ok v =>
      rw [hg] at h
      exact ⟨p0, v, rfl, generate_style_embedding_ok hg,
        (Except.ok.inj (congrArg Prod.fst h)).symm⟩

/-- Witness for C9: an update with an empty analysis result still replaces
the stored embedding with the freshly generated vector. -/
theorem C9_reembedding_mandatory_witness :
    ∃ p0 v, [profileA].find? (fun q => q.id == 1) = some p0 ∧
      (fun _ => (.ok [3] : Except String Vec)) (profile_to_text (applyAnalysisUpdate p0 {})) = .ok v ∧
      { profileA with style_embedding := some [3] } =
        { applyAnalysisUpdate p0 {} with style_embedding := some v } :=
  C9_reembedding_mandatory (fun _ => .ok [3]) [profileA] 1 {}
    { profileA with style_embedding := some [3] }
    [{ profileA with style_embedding := some [3] }] rfl

/-! ## Duplicate ids in a merge request -/

/-- C10 (confirmed): when `profile_ids` contains a duplicate, the distinct
stored rows matching the request are strictly fewer than the requested
count (row ids are unique in storage), so `merge_profiles` always fails
with the profile-not-found error, even though every listed id resolves to
an existing profile of the user. -/
theorem C10_duplicate_ids_fail (embed : String → Except String Vec)
    (db : List StyleProfile) (uid : Nat) (ids : List Nat) (name : String)
    (hdup : ¬ ids.Nodup) (hids : (db.map (fun p => p.id)).Nodup) :
    merge_profiles embed db uid ids name = (.error "One or more profiles not found", db) := by
  have hsub : ((queryProfiles db uid ids).map (fun p => p.id)).Sublist (db.map (fun p => p.id)) :=
    List.Sublist.map (fun p => p.id) (List.filter_sublist db)
  have h1 : ((queryProfiles db uid ids).map (fun p => p.id)).Nodup := hids.sublist hsub
  have h2 : ∀ x ∈ (queryProfiles db uid ids).map (fun p => p.id), x ∈ ids.dedup := by
    intro x hx
    rcases List.mem_map.1 hx with ⟨q, hq, rfl⟩
    rcases List.mem_filter.1 hq with ⟨-, hpred⟩
    rw [Bool.and_eq_true] at hpred
    exact List.mem_dedup.2 (by simpa using hpred.1)
  have h3 : ((queryProfiles db uid ids).map (fun p => p.id)).length ≤ ids.dedup.length :=
    (h1.subperm h2).length_le
  have h4 : ids.dedup.length < ids.length := by
    rcases Nat.lt_or_ge ids.dedup.length ids.length with hlt | hge
    · exact hlt
    · have heq : ids.dedup.length = ids.length :=
        Nat.le_antisymm (List.dedup_sublist ids).length_le hge
      have : ids.dedup = ids := (List.dedup_sublist ids).eq_of_length heq
      exact absurd (this ▸ List.nodup_dedup ids) hdup
  have hlt : (queryProfiles db uid ids).length < ids.length := by
    have := Nat.lt_of_le_of_lt h3 h4
    simpa using this
  simp only [merge_profiles]
  rw [if_pos hlt.ne]

/-- Witness for C10: requesting `[1, 1]` against a store holding exactly
profile 1 (owned by the user) fails with the profile-not-found error. -/
theorem C10_duplicate_ids_fail_witness :
    merge_profiles (fun _ => .ok [1]) [profileA] 1 [1, 1] "N" =
      (.error "One or more profiles not found", [profileA]) :=
  C10_duplicate_ids_fail (fun _ => .ok [1]) [profileA] 1 [1, 1] "N"
    (by simp) (by simp)

/-! ## Successful similarity computation and slice semantics -/

/-- `if profile.style_embedding:` — the candidate qualifies for similarity
computation exactly when its stored embedding is truthy. -/
def hasEmbedding (p : StyleProfile) : Bool :=
  match p.style_embedding with
  | some v => v != []
  | none => false

theorem computeSimilarities_ok (q : Vec) (db : List StyleProfile)
    (h : ∀ p ∈ db, ∀ v, p.style_embedding = some v → v ≠ [] → v.length = q.length) :
    ∃ sims, computeSimilarities q db = .ok sims ∧
      sims.map Prod.fst = db.filter hasEmbedding := by
  induction db with
  | nil => exact ⟨[], rfl, rfl⟩
  | cons a as ih =>
    obtain ⟨sims, hs, hmap⟩ := ih (fun p hp v hv hne => h p (List.mem_cons_of_mem a hp) v hv hne)
    cases hemb : a.style_embedding with
    | none =>
      refine ⟨sims, ?_, ?_⟩
      · simp only [computeSimilarities, hemb]
        exact hs
      · rw [List.filter_cons_of_neg (by simp [hasEmbedding, hemb])]
        exact hmap
    | some v =>
      by_cases hv : v = []
      · subst hv
        refine ⟨sims, ?_, ?_⟩
        · simp only [computeSimilarities, hemb]
          rw [if_pos trivial]
          exact hs
        · rw [List.filter_cons_of_neg (by simp [hasEmbedding, hemb])]
          exact hmap
      · have hlen : v.length = q.length := h a (List.mem_cons_self a as) v hemb hv
        have hcos : ∃ s, cosine_similarity q v = .ok s := by
          unfold cosine_similarity
          rw [if_neg (not_not_intro hlen.symm)]
          by_cases hm : sumSq q = 0 ∨ sumSq v = 0
          · rw [if_pos hm]
            exact ⟨0, rfl⟩
          · rw [if_neg hm]
            exact ⟨_, rfl⟩
        obtain ⟨s, hcs⟩ := hcos
        refine ⟨(a, s) :: sims, ?_, ?_⟩
        · simp only [computeSimilarities, hemb]
          rw [if_neg hv, hcs, hs]
        · rw [List.filter_cons_of_pos (by simp [hasEmbedding, hemb, hv]), List.map_cons, hmap]

/-- C2 (counterexample): `limit = 0` does not raise any error — the slice
`similarities[:0]` silently yields the empty list even though a qualified
candidate exists; there is no `InvalidLimitError` in the code. -/
theorem C2_counterexample :
    find_similar_profiles [profileA] [1, 0, 0] 0 = .ok [] := by
  simp [find_similar_profiles, computeSimilarities, cosine_similarity, dotProduct, sumSq,
    sortBySimilarityDesc, List.insertionSort, List.orderedInsert, simDescRel, pySlice,
    profileA, emptyStyleProfile]

/-- C2 (amended): `find_similar_profiles` performs no validation of
`limit`; Python slice semantics apply to `similarities[:limit]`.  For every
query (with no mismatched truthy embedding in the store) the call succeeds,
and the number of returned profiles is `min limit Q` for `limit ≥ 0` and
`Q - |limit|` (clamped at 0) for negative `limit`, where `Q` is the number
of candidates with a truthy stored embedding — in particular at most
`limit` results for `limit > 0`, fewer (never an error) when fewer
qualify, the empty list for `limit = 0`, and no error for `limit < 0`. -/
theorem C2_slice_semantics (db : List StyleProfile) (q : Vec) (lim : Int)
    (h : ∀ p ∈ db, ∀ v, p.style_embedding = some v → v ≠ [] → v.length = q.length) :
    ∃ res, find_similar_profiles db q lim = .ok res ∧
      res.length = (if 0 ≤ lim
        then min lim.toNat (db.filter hasEmbedding).length
        else (db.filter hasEmbedding).length - (-lim).toNat) := by
  obtain ⟨sims, hs, hmap⟩ := computeSimilarities_ok q db h
  have hQ : sims.length = (db.filter hasEmbedding).length := by
    rw [← hmap, List.length_map]
  have hsort : (sortBySimilarityDesc sims).length = sims.length :=
    List.length_insertionSort _ _
  refine ⟨(pySlice (sortBySimilarityDesc sims) lim).map Prod.fst, ?_, ?_⟩
  · simp only [find_similar_profiles]
    rw [hs]
  · rw [List.length_map, pySlice]
    by_cases h0 : 0 ≤ lim
    · rw [if_pos h0, if_pos h0, List.length_take, hsort, hQ]
    · rw [if_neg h0, if_neg h0, List.length_take, hsort, hQ]
      exact min_eq_left (Nat.sub_le _ _)

/-- Witness for C2: with one qualified candidate and `limit = 2` the call
returns one profile (fewer than `limit`, no error). -/
theorem C2_slice_semantics_witness :
    ∃ res, find_similar_profiles [profileA] [1, 0, 0] 2 = .ok res ∧
      res.length = (if 0 ≤ (2 : Int)
        then min (2 : Int).toNat ([profileA].filter hasEmbedding).length
        else ([profileA].filter hasEmbedding).length - (-(2 : Int)).toNat) :=
  C2_slice_semantics [profileA] [1, 0, 0] 2 (by
    intro p hp v hv hne
    rcases List.mem_singleton.1 hp with rfl
    have : some ([1, 0, 0] : Vec) = some v := hv
    rw [← Option.some.inj this])

/-! ## Stability of the descending sort -/

theorem filter_key_orderedInsert (v : ℚ) (a : StyleProfile × ℚ)
    (L : List (StyleProfile × ℚ)) :
    List.filter (fun x => decide (x.2 = v)) (List.orderedInsert simDescRel a L) =
      (if a.2 = v then [a] else []) ++ List.filter (fun x => decide (x.2 = v)) L := by
  rw [List.orderedInsert_eq_take_drop, List.filter_append, List.filter_cons]
  have hL : List.filter (fun x => decide (x.2 = v)) L =
      List.filter (fun x => decide (x.2 = v))
        (List.takeWhile (fun b => decide ¬ simDescRel a b) L) ++
      List.filter (fun x => decide (x.2 = v))
        (List.dropWhile (fun b => decide ¬ simDescRel a b) L) := by
    rw [← List.filter_append, List.takeWhile_append_dropWhile]
  by_cases hav : a.2 = v
  · have htw : List.filter (fun x => decide (x.2 = v))
        (List.takeWhile (fun b => decide ¬ simDescRel a b) L) = [] := by
      rw [List.filter_eq_nil_iff]
      intro b hb
      have hpred := List.mem_takeWhile_imp hb
      simp only [decide_eq_true_eq] at hpred ⊢
      intro hbv
      exact hpred (le_of_eq (hbv.trans hav.symm))
    rw [if_pos hav, if_pos (by simpa using hav), hL, htw]
    simp
  · rw [if_neg hav, if_neg (by simpa using hav), hL]
    simp

theorem filter_key_sortDesc (v : ℚ) (l : List (StyleProfile × ℚ)) :
    List.filter (fun x => decide (x.2 = v)) (sortBySimilarityDesc l) =
      List.filter (fun x => decide (x.2 = v)) l := by
  induction l with
  | nil => rfl
  | cons a as ih =>
    rw [sortBySimilarityDesc, List.insertionSort, filter_key_orderedInsert, List.filter_cons]
    rw [show List.insertionSort simDescRel as = sortBySimilarityDesc as from rfl, ih]
    by_cases hav : a.2 = v
    · rw [if_pos hav, if_pos (by simpa using hav)]
      rfl
    · rw [if_neg hav, if_neg (by simpa using hav)]
      rfl

/-- C7 (confirmed): `find_similar_profiles` sorts the qualifying candidates
by similarity in descending order with a stable sort (for every similarity
value, the candidates carrying it appear in their original relative order)
and truncates the sorted list to the first `limit` entries; in particular,
on the spec's example — query `[1,0,0]`, candidates A `[1,0,0]`,
B `[0,1,0]`, C `[0.9,0.1,0]` — it returns `[A, C, B]` for `limit = 3` and
`[A]` for `limit = 1`. -/
theorem C7_ranking_order :
    (find_similar_profiles [profileA, profileB, profileC] [1, 0, 0] 3 =
      .ok [profileA, profileC, profileB]) ∧
    (find_similar_profiles [profileA, profileB, profileC] [1, 0, 0] 1 = .ok [profileA]) ∧
    ∀ (db : List StyleProfile) (q : Vec) (lim : Int) (sims : List (StyleProfile × ℚ)),
      computeSimilarities q db = .ok sims →
      ∃ L, List.Perm L sims ∧ List.Sorted simDescRel L ∧
        (∀ v : ℚ, List.filter (fun x => decide (x.2 = v)) L =
          List.filter (fun x => decide (x.2 = v)) sims) ∧
        find_similar_profiles db q lim = .ok ((pySlice L lim).map Prod.fst) := by
  refine ⟨?_, ?_, ?_⟩
  · simp [find_similar_profiles, computeSimilarities, cosine_similarity, dotProduct, sumSq,
      sortBySimilarityDesc, List.insertionSort, List.orderedInsert, simDescRel, pySlice,
      profileA, profileB, profileC, emptyStyleProfile]
    norm_num [simDescRel]
  · simp [find_similar_profiles, computeSimilarities, cosine_similarity, dotProduct, sumSq,
      sortBySimilarityDesc, List.insertionSort, List.orderedInsert, simDescRel, pySlice,
      profileA, profileB, profileC, emptyStyleProfile]
    norm_num [simDescRel]
  · intro db q lim sims h
    refine ⟨sortBySimilarityDesc sims, List.perm_insertionSort simDescRel sims,
      List.sorted_insertionSort simDescRel sims,
      fun v => filter_key_sortDesc v sims, ?_⟩
    simp only [find_similar_profiles]
    rw [h]

/-- Witness for C7: the general sorted/stable/truncated form instantiated
on a concrete computed similarity list. -/
theorem C7_ranking_order_witness :
    ∃ L, List.Perm L [(profileA, (1 : ℚ))] ∧ List.Sorted simDescRel L ∧
      (∀ v : ℚ, List.filter (fun x => decide (x.2 = v)) L =
        List.filter (fun x => decide (x.2 = v)) [(profileA, (1 : ℚ))]) ∧
      find_similar_profiles [profileA] [1, 0, 0] 1 = .ok ((pySlice L 1).map Prod.fst) :=
  C7_ranking_order.2.2 [profileA] [1, 0, 0] 1 [(profileA, (1 : ℚ))] (by
    simp [computeSimilarities, cosine_similarity, dotProduct, sumSq, profileA,
      emptyStyleProfile])

/-- C8 (confirmed): for equal-length vectors, a zero magnitude on either
side makes `_cosine_similarity` return `0` — an `ok` value, so no
division-by-zero error is raised and no NaN is produced (the model has no
NaN; the source's `magnitude == 0` guard returns before dividing) — and in
the descending sort a zero-similarity entry never precedes an entry with
positive similarity. -/
theorem C8_zero_vector_safe :
    (∀ v1 v2 : Vec, v1.length = v2.length → (sumSq v1 = 0 ∨ sumSq v2 = 0) →
      cosine_similarity v1 v2 = .ok 0) ∧
    (∀ (l : List (StyleProfile × ℚ)) (i j : Fin (sortBySimilarityDesc l).length),
      ((sortBySimilarityDesc l).get i).2 = 0 →
      0 < ((sortBySimilarityDesc l).get j).2 → (j : Nat) < (i : Nat)) := by
  constructor
  · intro v1 v2 hlen hz
    unfold cosine_similarity
    rw [if_neg (not_not_intro hlen), if_pos hz]
  · intro l i j hi hj
    by_contra hcon
    have hij : (i : Nat) ≤ (j : Nat) := Nat.le_of_not_lt hcon
    rcases Nat.lt_or_ge (i : Nat) (j : Nat) with hlt | hge
    · have hs := (List.sorted_insertionSort simDescRel l).rel_get_of_lt
        (show i < j from hlt)
      have : ((sortBySimilarityDesc l).get j).2 ≤ ((sortBySimilarityDesc l).get i).2 := hs
      rw [hi] at this
      exact absurd (lt_of_lt_of_le hj this) (lt_irrefl 0)
    · have : (i : Nat) = (j : Nat) := Nat.le_antisymm hij hge
      have hij2 : i = j := Fin.ext this
      rw [hij2] at hi
      rw [hi] at hj
      exact lt_irrefl 0 hj

/-- Witness for C8: `[1,2,2]` against the zero vector `[0,0,0]` yields
similarity 0 without error, and in the sorted list
`[(A, 1), (Z, 0)]` the zero entry sits strictly after the positive one. -/
theorem C8_zero_vector_safe_witness :
    cosine_similarity [1, 2, 2] [0, 0, 0] = .ok 0 ∧
    cosine_similarity [0, 0, 0] [1, 2, 2] = .ok 0 :=
  ⟨C8_zero_vector_safe.1 [1, 2, 2] [0, 0, 0] (by simp)
      (Or.inr (by norm_num [sumSq])),
   C8_zero_vector_safe.1 [0, 0, 0] [1, 2, 2] (by simp)
      (Or.inl (by norm_num [sumSq]))⟩

end FashionStylist
